import Mathlib

/-!
# yubihsm-connector: the HTTP request pipeline of `api.go`

A shallow embedding of `src/api.go` and proofs about it.

* Go strings are Lean `String`s; the only characters the code searches for
  (a colon and a closing bracket) are single bytes, so slicing at their
  position is the same by byte and by character.
* `http.Header`, `http.ResponseWriter` and `http.Error` belong to Go's
  `net/http`; they are modelled after their documented behaviour.
* A handler body is a tree of the calls it makes (`Prog`); `Prog.run`
  executes it against a response writer and the external collaborators
  (`Env`), recording the calls to the collaborators in a trace.
-/

namespace Connector

/-! ## Go library: strings -/

namespace strings

/-- Go `strings.Contains(s, c)` for a one-character substring. -/
def Contains (s : String) (c : Char) : Bool := s.data.contains c

/-- Position of the first `c`, or `-1`. -/
def indexChars : List Char → Char → Int
  | [], _ => -1
  | x :: xs, c =>
    if x = c then 0
    else
      let i := indexChars xs c
      if i < 0 then -1 else i + 1

/-- Position of the last `c`, or `-1`. -/
def lastIndexChars : List Char → Char → Int
  | [], _ => -1
  | x :: xs, c =>
    let i := lastIndexChars xs c
    if 0 ≤ i then i + 1 else if x = c then 0 else -1

/-- Go `strings.Index(s, c)` for a one-character substring. -/
def Index (s : String) (c : Char) : Int := indexChars s.data c

/-- Go `strings.LastIndex(s, c)` for a one-character substring. -/
def LastIndex (s : String) (c : Char) : Int := lastIndexChars s.data c

/-- Pieces of a character list between the occurrences of `sep`. -/
def splitChars (sep : Char) : List Char → List (List Char)
  | [] => [[]]
  | x :: xs =>
    if x = sep then [] :: splitChars sep xs
    else
      match splitChars sep xs with
      | [] => [[x]]
      | p :: ps => (x :: p) :: ps

/-- Go `strings.Split(s, sep)` for a one-character separator. -/
def Split (s : String) (sep : Char) : List String :=
  (splitChars sep s.data).map String.mk

end strings

/-- Go slice expression `s[:idx]`. -/
def sliceTo (s : String) (idx : Int) : String := ⟨s.data.take idx.toNat⟩

/-- A Go `[]byte`. -/
abbrev Bytes := List UInt8

/-- Go conversion `[]byte(s)`: the UTF-8 bytes of the text. -/
def bytesOf (s : String) : Bytes := s.data.flatMap String.utf8EncodeChar

/-! ## Go library: net/http headers -/

/-- Token bytes of a header field name (`validHeaderFieldByte`). -/
def validHeaderFieldByte (c : Char) : Bool :=
  c.isAlphanum ||
    [33, 35, 36, 37, 38, 39, 42, 43, 45, 46, 94, 95, 96, 124, 126].contains c.toNat

/-- Upper-case the first letter and every letter after a hyphen, lower-case the rest. -/
def canonicalChars : Bool → List Char → List Char
  | _, [] => []
  | upper, c :: cs =>
    (if upper then c.toUpper else c.toLower) :: canonicalChars (c == '-') cs

/-- Go `textproto.CanonicalMIMEHeaderKey`: a key with a byte that is not a
token byte is returned unchanged. -/
def CanonicalMIMEHeaderKey (s : String) : String :=
  if s.data.all validHeaderFieldByte then ⟨canonicalChars true s.data⟩ else s

/-- Go `http.Header`, a map from canonical keys to lists of values. -/
structure Header where
  entries : List (String × List String)
deriving DecidableEq, Repr

/-- Values stored under exactly the key `k`. -/
def Header.values (h : Header) (k : String) : List String :=
  match h.entries.find? (fun e => e.1 == k) with
  | some e => e.2
  | none => []

/-- Go `Header.Get`: first value under the canonical key, or the empty string. -/
def Header.Get (h : Header) (key : String) : String :=
  (h.values (CanonicalMIMEHeaderKey key)).headD ""

/-- Go `Header.Set`: replace the values under the canonical key by one value. -/
def Header.Set (h : Header) (key value : String) : Header :=
  let k := CanonicalMIMEHeaderKey key
  ⟨(k, [value]) :: h.entries.filter (fun e => e.1 != k)⟩

/-- Go `Header.Add`: append a value under the canonical key. -/
def Header.Add (h : Header) (key value : String) : Header :=
  let k := CanonicalMIMEHeaderKey key
  ⟨(k, h.values k ++ [value]) :: h.entries.filter (fun e => e.1 != k)⟩

/-- Go `Header.Del`. -/
def Header.Del (h : Header) (key : String) : Header :=
  let k := CanonicalMIMEHeaderKey key
  ⟨h.entries.filter (fun e => e.1 != k)⟩

/-- Go `http.StatusText` on the codes the connector uses. -/
def StatusText (code : Int) : String :=
  if code = 200 then "OK"
  else if code = 400 then "Bad Request"
  else if code = 403 then "Forbidden"
  else if code = 405 then "Method Not Allowed"
  else if code = 500 then "Internal Server Error"
  else ""

def StatusOK : Int := 200
def StatusBadRequest : Int := 400
def StatusForbidden : Int := 403
def StatusMethodNotAllowed : Int := 405
def StatusInternalServerError : Int := 500

/-! ## Requests, collaborators and the trace -/

/-- Value of `r.Context().Value(http.LocalAddrContextKey)`. -/
inductive LocalAddr where
  /-- A `*net.TCPAddr`, carried as its `String()` rendering. -/
  | tcp (str : String)
  /-- A `*net.UnixAddr` with its `Name`. -/
  | unix (name : String)
  /-- Any other value. -/
  | other
deriving DecidableEq, Repr

/-- The fields of `*http.Request` that `api.go` reads. `Body` is the outcome
of `ioutil.ReadAll(r.Body)`. -/
structure Request where
  Method : String
  Header : Header
  ContentLength : Int
  RemoteAddr : String
  Host : String
  Body : Except String Bytes
  LocalAddr : LocalAddr

/-- Process-wide configuration read by `api.go`. -/
structure Config where
  hostHeaderAllowlisting : Bool
  hostHeaderAllowlist : List String
  /-- Rendering of `Version.String()`. -/
  Version : String

/-- External collaborators. Errors are carried as their message. -/
structure Env where
  /-- Outcome of `uuid.NewRandom()` rendered with `String()`. -/
  NewRandom : Except String String
  /-- Device transport `usbCheck(cid, serial)`: `none` is a nil error. -/
  usbCheck : String → String → Option String
  /-- Device transport `usbProxy(buf, cid, serial)`. -/
  usbProxy : Bytes → String → String → Except String Bytes
  /-- Behaviour of the connection on `Write`: from the bytes accepted so far
  and the payload, the count reported and the error. -/
  accept : Bytes → Bytes → Nat × Option String

inductive Level where
  | info
  | warn
  | error
deriving DecidableEq, Repr

/-- Calls that leave the handler, in the order they happen. -/
inductive Event where
  | uuid
  | log (lvl : Level) (msg : String)
  | serveHTTP
  | readAll
  | usbCheck (cid serial : String)
  | usbProxy (buf : Bytes) (cid serial : String)
deriving DecidableEq, Repr

/-! ## Go library: net/http response writer -/

/-- State of the server's `http.ResponseWriter` for one request. `header` is
the map returned by `Header()`; `wroteHeader`, `status` and `sentHeader` are
the final response header once it went out; `informational` lists the 1xx
responses sent before it; `body` holds the bytes the connection accepted and
`writes` the payloads handed to `Write`. -/
structure ResponseWriter where
  header : Header
  wroteHeader : Bool
  status : Int
  sentHeader : Header
  informational : List Int
  body : Bytes
  writes : List Bytes
deriving DecidableEq, Repr

/-- A response on which nothing has been set or written. -/
def ResponseWriter.new : ResponseWriter :=
  { header := ⟨[]⟩, wroteHeader := false, status := 0, sentHeader := ⟨[]⟩, informational := [],
    body := [], writes := [] }

def StatusSwitchingProtocols : Int := 101

/-- Go `WriteHeader` of the server, with the value of the fault it raises, if
any. Once the final header went out a later call is superfluous and ignored.
Otherwise a code outside 100..999 faults (`checkWriteHeaderCode`); a 1xx code
other than 101 is sent as an informational response and leaves the final
header open; any other code is sent as the final status. -/
def ResponseWriter.WriteHeader (w : ResponseWriter) (code : Int) :
    ResponseWriter × Option String :=
  if w.wroteHeader then (w, none)
  else if code < 100 || code > 999 then (w, some "invalid WriteHeader code")
  else if code ≥ 100 && code ≤ 199 && code != StatusSwitchingProtocols then
    ({ w with informational := w.informational ++ [code] }, none)
  else ({ w with wroteHeader := true, status := code, sentHeader := w.header }, none)

/-- Go `Write` of the server: sends `WriteHeader(200)` first when no final
header was written yet (200 is a valid final code, so this call cannot
fault). -/
def ResponseWriter.Write (accept : Bytes → Bytes → Nat × Option String)
    (w : ResponseWriter) (p : Bytes) : ResponseWriter × Nat × Option String :=
  let w := if w.wroteHeader then w else (w.WriteHeader StatusOK).1
  let res := accept w.body p
  ({ w with body := w.body ++ p.take res.1, writes := w.writes ++ [p] }, res.1, res.2)

/-- The method set of the `http.ResponseWriter` interface over a state `σ`;
`WriteHeader` also gives the value of the fault it raises, if any. -/
structure Writer (σ : Type) where
  getHeader : σ → Header
  setHeader : σ → Header → σ
  WriteHeader : σ → Int → σ × Option String
  Write : (Bytes → Bytes → Nat × Option String) → σ → Bytes → σ × Nat × Option String

/-- The server's writer as an `http.ResponseWriter`. -/
def baseWriter : Writer ResponseWriter where
  getHeader w := w.header
  setHeader w h := { w with header := h }
  WriteHeader := ResponseWriter.WriteHeader
  Write := ResponseWriter.Write

/-! ## api.go -/

/-- Source lines 29-36: `uuidv4`, result and error. -/
def uuidv4 (env : Env) : String × Option String :=
  match env.NewRandom with
  | .error err => ("", some err)
  | .ok uuid => (uuid, none)

/-- Source lines 38-41: `statusReponse` embeds the writer and records a status. -/
structure statusReponse where
  ResponseWriter : ResponseWriter
  status : Int
deriving DecidableEq, Repr

/-- Source lines 50-53: the status is recorded, then the embedded writer is
called; a fault of that call leaves the record in place. -/
def statusReponse.WriteHeader (r : statusReponse) (status : Int) :
    statusReponse × Option String :=
  let res := r.ResponseWriter.WriteHeader status
  ({ ResponseWriter := res.1, status := status }, res.2)

/-- Source lines 43-48. The call `r.WriteHeader(http.StatusOK)` cannot fault,
200 being a valid code. -/
def statusReponse.Write (accept : Bytes → Bytes → Nat × Option String)
    (r : statusReponse) (p : Bytes) : statusReponse × Nat × Option String :=
  let r := if r.status == 0 then (r.WriteHeader StatusOK).1 else r
  let res := r.ResponseWriter.Write accept p
  ({ r with ResponseWriter := res.1 }, res.2)

/-- The `statusReponse` as an `http.ResponseWriter`: `Header` is promoted from
the embedded writer, `Write` and `WriteHeader` are its own. -/
def statusWriter : Writer statusReponse where
  getHeader r := r.ResponseWriter.header
  setHeader r h := { r with ResponseWriter := { r.ResponseWriter with header := h } }
  WriteHeader := statusReponse.WriteHeader
  Write := statusReponse.Write

/-- How a call ends: by returning, or with a runtime fault carrying a
(non-nil) value. -/
inductive Outcome where
  | returned
  | panicked (v : String)
deriving DecidableEq, Repr

/-- Body of an `http.HandlerFunc` as the tree of calls it makes on its
response writer and on the collaborators; a continuation receives what the
call returned. -/
inductive Prog where
  | ret
  | panic (v : String)
  | headerSet (key value : String) (k : Prog)
  | headerAdd (key value : String) (k : Prog)
  | headerDel (key : String) (k : Prog)
  | headerGet (key : String) (k : String → Prog)
  | writeHeader (code : Int) (k : Prog)
  | write (p : Bytes) (k : Nat → Option String → Prog)
  | readAll (body : Except String Bytes) (k : Except String Bytes → Prog)
  | usbCheck (cid serial : String) (k : Option String → Prog)
  | usbProxy (buf : Bytes) (cid serial : String) (k : Except String Bytes → Prog)
  | log (lvl : Level) (msg : String) (k : Prog)

/-- Result of running a handler body. -/
structure Run (σ : Type) where
  w : σ
  trace : List Event
  outcome : Outcome

/-- Execute a handler body on the writer `W` with the collaborators `env`. -/
def Prog.run {σ : Type} (W : Writer σ) (env : Env) : Prog → σ → List Event → Run σ
  | .ret, w, t => ⟨w, t, .returned⟩
  | .panic v, w, t => ⟨w, t, .panicked v⟩
  | .headerSet key value k, w, t => k.run W env (W.setHeader w ((W.getHeader w).Set key value)) t
  | .headerAdd key value k, w, t => k.run W env (W.setHeader w ((W.getHeader w).Add key value)) t
  | .headerDel key k, w, t => k.run W env (W.setHeader w ((W.getHeader w).Del key)) t
  | .headerGet key k, w, t => (k ((W.getHeader w).Get key)).run W env w t
  | .writeHeader code k, w, t =>
    match (W.WriteHeader w code).2 with
    | some v => ⟨(W.WriteHeader w code).1, t, .panicked v⟩
    | none => k.run W env (W.WriteHeader w code).1 t
  | .write p k, w, t =>
    let res := W.Write env.accept w p
    (k res.2.1 res.2.2).run W env res.1 t
  | .readAll body k, w, t => (k body).run W env w (t ++ [.readAll])
  | .usbCheck cid serial k, w, t =>
    (k (env.usbCheck cid serial)).run W env w (t ++ [.usbCheck cid serial])
  | .usbProxy buf cid serial k, w, t =>
    (k (env.usbProxy buf cid serial)).run W env w (t ++ [.usbProxy buf cid serial])
  | .log lvl msg k, w, t => k.run W env w (t ++ [.log lvl msg])

/-- Go `http.Error(w, error, code)`, then `k`: two header fields, the status,
and the text with a newline. -/
def httpError (error : String) (code : Int) (k : Prog) : Prog :=
  .headerSet "Content-Type" "text/plain; charset=utf-8" <|
  .headerSet "X-Content-Type-Options" "nosniff" <|
  .writeHeader code <|
  .write (bytesOf (error ++ "\n")) fun _ _ => k

/-- Go `fmt.Fprintf(w, ...)` with the formatted text `s`, then `k`; the
result of the write is dropped. -/
def Fprintf (s : String) (k : Prog) : Prog :=
  .write (bytesOf s) fun _ _ => k

/-- Source lines 231-244. -/
def extractHost (addr : String) : String :=
  if strings.Contains addr ':' then
    let idx := strings.LastIndex addr ':'
    let idx2 : Int := if strings.Contains addr ']' then strings.Index addr ']' else 0
    if idx > idx2 then sliceTo addr idx else addr
  else addr

/-- Source lines 246-254, with the global allowlist as an argument. -/
def validateHost (hostHeaderAllowlist : List String) (addr : String) : Bool :=
  let host := extractHost addr
  hostHeaderAllowlist.any (fun h => h == host)

def min_len : Int := 3
def max_len : Int := 2048 + 3

/-- Source lines 173-229. -/
def apiHandler (r : Request) (serial : String) : Prog :=
  let cid := r.Header.Get "X-Request-ID"
  if r.Method != "POST" then
    .headerSet "Allow" "POST" <|
    httpError (StatusText StatusMethodNotAllowed) StatusMethodNotAllowed .ret
  else if r.ContentLength < min_len || r.ContentLength > max_len then
    httpError (StatusText StatusBadRequest) StatusBadRequest .ret
  else
    .readAll r.Body fun res =>
    match res with
    | .error _ =>
      .log .error "failed reading incoming request" <|
      httpError (StatusText StatusInternalServerError) StatusInternalServerError .ret
    | .ok buf =>
      .usbProxy buf cid serial fun res =>
      match res with
      | .error _ =>
        .log .error "failed usb proxy" <|
        httpError (StatusText StatusInternalServerError) StatusInternalServerError .ret
      | .ok buf =>
        .headerSet "Content-Type" "application/octet-stream" <|
        .write buf fun n err =>
        if err.isSome then
          .log .error "failed response write" <|
          httpError (StatusText StatusInternalServerError) StatusInternalServerError .ret
        else if n != buf.length then
          .log .error "partial response write" <|
          httpError (StatusText StatusInternalServerError) StatusInternalServerError .ret
        else .ret

/-- Source lines 124-171. `SplitHostPort` is Go's `net.SplitHostPort` with its
error dropped, as the source drops it. -/
def statusHandler (cfg : Config) (SplitHostPort : String → String × String)
    (r : Request) (serial : String) : Prog :=
  if r.Method != "GET" then
    .headerSet "Allow" "GET" <|
    httpError (StatusText StatusMethodNotAllowed) StatusMethodNotAllowed .ret
  else
    let cid := r.Header.Get "X-Request-ID"
    .usbCheck cid serial fun err =>
    let status := if err.isSome then "NO_DEVICE" else "OK"
    (if err.isSome then Prog.log .warn "status failed to open usb device" else fun k => k) <|
    let addr : String × String :=
      match r.LocalAddr with
      | .tcp str => SplitHostPort str
      | .unix name => (name, "0")
      | .other => ("", "")
    Fprintf ("status=" ++ status ++ "\n") <|
    (if serial == "" then Fprintf "serial=*\n" else Fprintf ("serial=" ++ serial ++ "\n")) <|
    Fprintf ("version=" ++ cfg.Version ++ "\n") <|
    Fprintf "pid=1\n" <|
    Fprintf ("address=" ++ addr.1 ++ "\n") <|
    Fprintf ("port=" ++ addr.2 ++ "\n") <|
    .ret

/-- Source lines 59-66: the correlation id, the request with the id written
back, and the events. -/
def assignRequestID (env : Env) (r : Request) : String × Request × List Event :=
  let id := r.Header.Get "X-Request-ID"
  if id == "" then
    let res := uuidv4 env
    let id := if res.2.isSome then "-" else res.1
    (id, { r with Header := r.Header.Set "X-Request-ID" id }, [.uuid])
  else (id, r, [])

/-- Source lines 67-72: the client IP and the request with it written back. -/
def assignRealIP (r : Request) : String × Request :=
  let ip := r.Header.Get "X-Real-IP"
  if ip == "" then
    let s := strings.Split r.RemoteAddr ':'
    let ip := s.headD ""
    (ip, { r with Header := r.Header.Set "X-Real-IP" ip })
  else (ip, r)

/-- Source lines 102-108: the wrapped handler run on a fresh `statusReponse`
around `w`, after the correlation id was added to the response header. -/
def serveNext (env : Env) (next : Request → Prog) (w : ResponseWriter) (r : Request)
    (id : String) (t : List Event) : Run statusReponse :=
  let response : statusReponse := { ResponseWriter := w, status := 0 }
  let response := statusWriter.setHeader response ((statusWriter.getHeader response).Add "X-Request-ID" id)
  (next r).run statusWriter env response (t ++ [.serveHTTP])

/-- Result of one call of the handler built by `middlewareWrapper`. -/
structure Served where
  w : ResponseWriter
  r : Request
  trace : List Event
  outcome : Outcome

/-- Source lines 55-122. The deferred function of lines 85-94 runs when the
body ends with a fault: it logs, answers with `http.Error` on `w`, and the
call returns. -/
def middlewareWrapper (cfg : Config) (env : Env) (next : Request → Prog)
    (w : ResponseWriter) (r : Request) : Served :=
  let a := assignRequestID env r
  let id := a.1
  let b := assignRealIP a.2.1
  let r := b.2
  let t := a.2.2
  if cfg.hostHeaderAllowlisting && !validateHost cfg.hostHeaderAllowlist r.Host then
    let res := (Prog.log .error "host not in allowlist" <|
      httpError (StatusText StatusForbidden) StatusForbidden .ret).run baseWriter env w t
    ⟨res.w, r, res.trace, .returned⟩
  else
    let h := serveNext env next w r id t
    match h.outcome with
    | .panicked _ =>
      let res := (Prog.log .error "recovered from handler panic" <|
        httpError (StatusText StatusInternalServerError) StatusInternalServerError .ret).run
          baseWriter env h.w.ResponseWriter h.trace
      ⟨res.w, r, res.trace, .returned⟩
    | .returned =>
      let t := h.trace ++
        [if h.w.status != StatusOK then Event.log .error "error in handling request"
         else Event.log .info "handled request"]
      ⟨h.w.ResponseWriter, r, t, .returned⟩

/-! ## Reading the trace -/

/-- Arguments of the calls to the device transport's `usbProxy`, in order. -/
def proxyCalls (t : List Event) : List (Bytes × String × String) :=
  t.filterMap fun e =>
    match e with
    | .usbProxy buf cid serial => some (buf, cid, serial)
    | _ => none

/-- Arguments of the calls to the device transport's `usbCheck`, in order. -/
def checkCalls (t : List Event) : List (String × String) :=
  t.filterMap fun e =>
    match e with
    | .usbCheck cid serial => some (cid, serial)
    | _ => none

/-- Number of calls to the device transport. -/
def deviceCalls (t : List Event) : Nat :=
  (proxyCalls t).length + (checkCalls t).length

/-- Number of times the wrapped handler was invoked. -/
def serveCount (t : List Event) : Nat := t.count .serveHTTP

/-- Whether the request body was read. -/
def bodyRead (t : List Event) : Bool := t.contains .readAll

/-- A concrete environment: devices answer, the connection accepts every write in full. -/
def demoEnv : Env where
  NewRandom := .ok "6ba7b810-9dad-41d1-80b4-00c04fd430c8"
  usbCheck _ _ := none
  usbProxy buf _ _ := .ok (buf ++ [1])
  accept _ p := (p.length, none)

/-- A concrete relay request with a three-byte frame. -/
def demoPost : Request where
  Method := "POST"
  Header := ⟨[("X-Request-Id", ["req-1"])]⟩
  ContentLength := 3
  RemoteAddr := "192.0.2.7:51000"
  Host := "localhost:12345"
  Body := .ok [5, 0, 0]
  LocalAddr := .tcp "127.0.0.1:12345"

/-- Running the relay handler on the server's writer, from an empty trace. -/
def relay (env : Env) (r : Request) (serial : String) (w : ResponseWriter) : Run ResponseWriter :=
  (apiHandler r serial).run baseWriter env w []

/-- A relay request announcing `n` bytes and carrying `n` zero bytes. -/
def postOfLength (n : Nat) : Request where
  Method := "POST"
  Header := ⟨[("X-Request-Id", ["req-1"])]⟩
  ContentLength := n
  RemoteAddr := "192.0.2.7:51000"
  Host := "localhost:12345"
  Body := .ok (List.replicate n 0)
  LocalAddr := .tcp "127.0.0.1:12345"

/-- A relay request that announces an unknown length. -/
def postUnknownLength : Request := { demoPost with ContentLength := -1 }

/-- An allowlist with one host, allowlisting enabled. -/
def demoCfg : Config := ⟨true, ["localhost"], "3.0.4"⟩

/-- A relay request whose Host is not on the allowlist of `demoCfg`. -/
def foreignPost : Request := { demoPost with Host := "rebind.example:12345" }

/-- A relay request from an IPv6 peer, without an X-Real-IP header. -/
def ipv6Post : Request := { demoPost with RemoteAddr := "[::1]:1234" }

/-- A handler that sets a status, writes two bytes and then faults. -/
def faultAfterWrite : Request → Prog :=
  fun _ => .writeHeader 200 (.write [1, 2] fun _ _ => .panic "boom")

/-- A handler that faults before touching the response. -/
def faultAtOnce : Request → Prog := fun _ => .panic "boom"

/-- One run of the wrapped handler `next` as `next.ServeHTTP(response, r)`
at line 108 asks for it: on the request with the headers of lines 59-72
written back, on a `statusReponse` around `w` whose header carries the
correlation id, after the events of lines 59-72. -/
def handled (env : Env) (next : Request → Prog) (w : ResponseWriter) (r : Request) :
    Run statusReponse :=
  (next (assignRealIP (assignRequestID env r).2.1).2).run statusWriter env
    { ResponseWriter := { w with header := w.header.Add "X-Request-ID" (assignRequestID env r).1 },
      status := 0 }
    ((assignRequestID env r).2.2 ++ [.serveHTTP])

/-- A handler that sends an informational 103 and then faults. -/
def faultAfterEarlyHints : Request → Prog := fun _ => .writeHeader 103 (.panic "boom")

/-- A handler that calls `WriteHeader` with a code the server refuses. -/
def invalidCodeHandler : Request → Prog := fun _ => .writeHeader 0 .ret

/-- The recovery of lines 85-94 as a body run on the server's writer. -/
def recovery : Prog :=
  .log .error "recovered from handler panic" <|
  httpError (StatusText StatusInternalServerError) StatusInternalServerError .ret

/-- A body that makes the `Write` calls `ps` in order and returns. -/
def writeAll : List Bytes → Prog
  | [] => .ret
  | p :: ps => .write p fun _ _ => writeAll ps

/-- Running the status handler on the server's writer, from an empty trace. -/
def report (cfg : Config) (SplitHostPort : String → String × String) (env : Env) (r : Request)
    (serial : String) (w : ResponseWriter) : Run ResponseWriter :=
  (statusHandler cfg SplitHostPort r serial).run baseWriter env w []

/-- Status text as the specification words it: OK when the device check
succeeded, NO_DEVICE otherwise. -/
def specStatus (check : Option String) : String :=
  match check with
  | none => "OK"
  | some _ => "NO_DEVICE"

/-- Serial text as the specification words it: a star when no serial was
requested, the serial otherwise. -/
def specSerial (serial : String) : String := if serial = "" then "*" else serial

/-- Host and port as the specification words them: the split TCP address, the
socket name with port 0, or both blank. -/
def specAddress (SplitHostPort : String → String × String) : LocalAddr → String × String
  | .tcp str => SplitHostPort str
  | .unix name => (name, "0")
  | .other => ("", "")

/-- The six lines of the status body, in the order of the specification. -/
def specLines (status serial version host port : String) : List String :=
  ["status=" ++ status ++ "\n", "serial=" ++ serial ++ "\n", "version=" ++ version ++ "\n",
    "pid=1\n", "address=" ++ host ++ "\n", "port=" ++ port ++ "\n"]

/-- A stand-in for `net.SplitHostPort` on the one address the examples use. -/
def demoSplit (s : String) : String × String :=
  if s = "127.0.0.1:12345" then ("127.0.0.1", "12345") else ("", "")

/-- A status request; the device check fails in `noDeviceEnv`. -/
def demoGet : Request := { demoPost with Method := "GET", ContentLength := 0, Body := .ok [] }

/-- An environment without a device. -/
def noDeviceEnv : Env := { demoEnv with usbCheck := fun _ _ => some "no device" }

/-- An environment whose connection accepts only the first byte of a write
and reports no error. -/
def shortWriteEnv : Env := { demoEnv with accept := fun _ _ => (1, none) }

/-! ## Lemmas on headers and the length check -/

theorem Header.Get_Set (h : Header) (key value : String) : (h.Set key value).Get key = value := by
  simp [Header.Get, Header.Set, Header.values]

theorem length_check_iff (L : Int) :
    (decide (L < min_len) || decide (L > max_len)) = true ↔ (L < 3 ∨ L > 2051) := by
  simp [min_len, max_len]

/-- Out of range, the relay handler answers 400 and touches neither body nor device. -/
theorem relay_out_of_range (env : Env) (r : Request) (serial : String) (w : ResponseWriter)
    (hmethod : r.Method = "POST") (hfresh : w.wroteHeader = false)
    (hlen : r.ContentLength < 3 ∨ r.ContentLength > 2051) :
    (relay env r serial w).w.wroteHeader = true ∧ (relay env r serial w).w.status = 400 ∧
      (relay env r serial w).trace = [] := by
  have hc := (length_check_iff r.ContentLength).mpr hlen
  simp only [relay, apiHandler, hmethod]
  rw [if_neg (by decide), if_pos hc]
  simp [Prog.run, httpError, baseWriter, ResponseWriter.Write, ResponseWriter.WriteHeader, hfresh,
    StatusBadRequest]

/-- In range, the relay handler reads the body and never answers 400. -/
theorem relay_in_range (env : Env) (r : Request) (serial : String) (w : ResponseWriter)
    (hmethod : r.Method = "POST") (hfresh : w.wroteHeader = false)
    (hlen : 3 ≤ r.ContentLength ∧ r.ContentLength ≤ 2051) :
    (relay env r serial w).w.status ≠ 400 ∧ bodyRead (relay env r serial w).trace = true := by
  have hc : ¬ ((decide (r.ContentLength < min_len) || decide (r.ContentLength > max_len)) = true) := by
    rw [length_check_iff]; omega
  simp only [relay, apiHandler, hmethod]
  rw [if_neg (by decide), if_neg hc]
  cases hb : r.Body with
  | error e =>
    simp [Prog.run, httpError, baseWriter, ResponseWriter.Write, ResponseWriter.WriteHeader,
      hfresh, StatusInternalServerError, bodyRead]
  | ok buf =>
    simp only [Prog.run]
    cases hp : env.usbProxy buf (r.Header.Get "X-Request-ID") serial with
    | error e =>
      simp [Prog.run, httpError, baseWriter, ResponseWriter.Write, ResponseWriter.WriteHeader,
        hfresh, StatusInternalServerError, bodyRead]
    | ok resp =>
      simp only [Prog.run]
      split
      · simp [Prog.run, httpError, baseWriter, ResponseWriter.Write, ResponseWriter.WriteHeader,
          hfresh, StatusOK, bodyRead]
      · split
        · simp [Prog.run, httpError, baseWriter, ResponseWriter.Write, ResponseWriter.WriteHeader,
            hfresh, StatusOK, bodyRead]
        · simp [Prog.run, baseWriter, ResponseWriter.Write, ResponseWriter.WriteHeader,
            hfresh, StatusOK, bodyRead]

/-- What the relay answers to `postOfLength n` in the concrete environment,
for a length the check lets through. -/
theorem relay_postOfLength (n : Nat) (h3 : 3 ≤ n) (hmax : n ≤ 2051) :
    (relay demoEnv (postOfLength n) "" ResponseWriter.new).w.status = 200 ∧
      ¬ (relay demoEnv (postOfLength n) "" ResponseWriter.new).w.status = 400 ∧
      (proxyCalls (relay demoEnv (postOfLength n) "" ResponseWriter.new).trace).length = 1 := by
  have hc : ¬ ((decide ((n : Int) < min_len) || decide ((n : Int) > max_len)) = true) := by
    rw [length_check_iff]; omega
  simp only [relay, apiHandler, postOfLength]
  rw [if_neg (by decide), if_neg hc]
  simp [Prog.run, demoEnv, baseWriter, ResponseWriter.Write,
    ResponseWriter.WriteHeader, ResponseWriter.new, StatusOK, proxyCalls]

/-! ## Lemmas on the middleware -/

theorem assignRealIP_Host (r : Request) : (assignRealIP r).2.Host = r.Host := by
  unfold assignRealIP
  dsimp only
  split <;> rfl

theorem assignRequestID_Host (env : Env) (r : Request) :
    (assignRequestID env r).2.1.Host = r.Host := by
  unfold assignRequestID
  dsimp only
  split <;> rfl

theorem assign_Host (env : Env) (r : Request) :
    (assignRealIP (assignRequestID env r).2.1).2.Host = r.Host := by
  rw [assignRealIP_Host, assignRequestID_Host]

theorem assignRequestID_trace (env : Env) (r : Request) :
    (assignRequestID env r).2.2 = [] ∨ (assignRequestID env r).2.2 = [.uuid] := by
  unfold assignRequestID
  dsimp only
  split
  · right; rfl
  · left; rfl

/-- A handler body cannot add an invocation of the wrapped handler to the trace. -/
theorem serveCount_run {σ : Type} (W : Writer σ) (env : Env) (p : Prog) (w : σ) (t : List Event) :
    serveCount (p.run W env w t).trace = serveCount t := by
  induction p generalizing w t with
  | ret => rfl
  | panic v => rfl
  | headerSet key value k ih => simpa [Prog.run] using ih _ _
  | headerAdd key value k ih => simpa [Prog.run] using ih _ _
  | headerDel key k ih => simpa [Prog.run] using ih _ _
  | headerGet key k ih => simpa [Prog.run] using ih _ _ _
  | writeHeader code k ih =>
    simp only [Prog.run]
    split
    · rfl
    · exact ih _ _
  | write p k ih => simpa [Prog.run] using ih _ _ _ _
  | readAll body k ih =>
    simp only [Prog.run]; rw [ih]; simp [serveCount]
  | usbCheck cid serial k ih =>
    simp only [Prog.run]; rw [ih]; simp [serveCount]
  | usbProxy buf cid serial k ih =>
    simp only [Prog.run]; rw [ih]; simp [serveCount]
  | log lvl msg k ih =>
    simp only [Prog.run]; rw [ih]; simp [serveCount]

theorem validateHost_iff (allow : List String) (addr : String) :
    validateHost allow addr = true ↔ extractHost addr ∈ allow := by
  simp [validateHost]

/-- The 403 path of the middleware: status, and a trace without handler or device. -/
theorem middleware_rejects (cfg : Config) (env : Env) (next : Request → Prog)
    (w : ResponseWriter) (r : Request)
    (hen : cfg.hostHeaderAllowlisting = true) (hfresh : w.wroteHeader = false)
    (hv : validateHost cfg.hostHeaderAllowlist r.Host = false) :
    (middlewareWrapper cfg env next w r).w.wroteHeader = true ∧
      (middlewareWrapper cfg env next w r).w.status = 403 ∧
      serveCount (middlewareWrapper cfg env next w r).trace = 0 ∧
      deviceCalls (middlewareWrapper cfg env next w r).trace = 0 ∧
      (middlewareWrapper cfg env next w r).outcome = .returned := by
  unfold middlewareWrapper
  simp only [assign_Host, hen, hv]
  rcases assignRequestID_trace env r with ht | ht <;>
    simp [ht, Prog.run, httpError, baseWriter, ResponseWriter.Write, ResponseWriter.WriteHeader,
      hfresh, StatusForbidden, serveCount, deviceCalls, proxyCalls, checkCalls]

/-- The `WriteHeader(200)` inside the two `Write` methods never faults. -/
theorem WriteHeader_StatusOK_no_fault (w : ResponseWriter) (r : statusReponse) :
    (w.WriteHeader StatusOK).2 = none ∧ (r.WriteHeader StatusOK).2 = none := by
  constructor
  · cases hw : w.wroteHeader <;>
      simp [ResponseWriter.WriteHeader, hw, StatusOK, StatusSwitchingProtocols]
  · cases hw : r.ResponseWriter.wroteHeader <;>
      simp [statusReponse.WriteHeader, ResponseWriter.WriteHeader, hw, StatusOK,
        StatusSwitchingProtocols]

theorem serveNext_eq_handled (env : Env) (next : Request → Prog) (w : ResponseWriter)
    (r : Request) :
    serveNext env next w (assignRealIP (assignRequestID env r).2.1).2 (assignRequestID env r).1
      (assignRequestID env r).2.2 = handled env next w r := rfl

theorem serveCount_handled (env : Env) (next : Request → Prog) (w : ResponseWriter)
    (r : Request) : serveCount (handled env next w r).trace = 1 := by
  unfold handled
  rw [serveCount_run]
  rcases assignRequestID_trace env r with ht | ht <;> simp [ht, serveCount]

/-- What the recovery of lines 85-94 does to the server's writer: one log
line, and status 500 unless the final header already went out. -/
theorem recovery_run (env : Env) (w : ResponseWriter) (t : List Event) :
    (recovery.run baseWriter env w t).trace = t ++ [.log .error "recovered from handler panic"] ∧
      (recovery.run baseWriter env w t).outcome = .returned ∧
      (recovery.run baseWriter env w t).w.wroteHeader = true ∧
      (recovery.run baseWriter env w t).w.status = (if w.wroteHeader then w.status else 500) := by
  cases hw : w.wroteHeader <;>
    simp [recovery, Prog.run, httpError, baseWriter, ResponseWriter.Write,
      ResponseWriter.WriteHeader, hw, StatusInternalServerError, StatusSwitchingProtocols]

/-- The delegation path of the middleware when the wrapped handler returns. -/
theorem middleware_returned (cfg : Config) (env : Env) (next : Request → Prog)
    (w : ResponseWriter) (r : Request)
    (hv : (cfg.hostHeaderAllowlisting && !validateHost cfg.hostHeaderAllowlist r.Host) = false)
    (hret : (handled env next w r).outcome = .returned) :
    (middlewareWrapper cfg env next w r).w = (handled env next w r).w.ResponseWriter ∧
      (middlewareWrapper cfg env next w r).trace = (handled env next w r).trace ++
        [if (handled env next w r).w.status != StatusOK
          then Event.log .error "error in handling request"
          else Event.log .info "handled request"] ∧
      (middlewareWrapper cfg env next w r).outcome = .returned := by
  unfold middlewareWrapper
  simp only [assign_Host, hv, Bool.false_eq_true, if_false, serveNext_eq_handled, hret]
  exact ⟨trivial, trivial, trivial⟩

/-- The delegation path of the middleware when the wrapped handler faults. -/
theorem middleware_panicked (cfg : Config) (env : Env) (next : Request → Prog)
    (w : ResponseWriter) (r : Request) (v : String)
    (hv : (cfg.hostHeaderAllowlisting && !validateHost cfg.hostHeaderAllowlist r.Host) = false)
    (hfault : (handled env next w r).outcome = .panicked v) :
    (middlewareWrapper cfg env next w r).w =
        (recovery.run baseWriter env (handled env next w r).w.ResponseWriter
          (handled env next w r).trace).w ∧
      (middlewareWrapper cfg env next w r).trace =
        (handled env next w r).trace ++ [.log .error "recovered from handler panic"] ∧
      (middlewareWrapper cfg env next w r).outcome = .returned := by
  have hrec := recovery_run env (handled env next w r).w.ResponseWriter (handled env next w r).trace
  unfold middlewareWrapper
  simp only [assign_Host, hv, Bool.false_eq_true, if_false, serveNext_eq_handled, hfault]
  exact ⟨rfl, hrec.1, trivial⟩

/-- The delegation path of the middleware: the wrapped handler runs exactly once. -/
theorem middleware_delegates (cfg : Config) (env : Env) (next : Request → Prog)
    (w : ResponseWriter) (r : Request)
    (hv : (cfg.hostHeaderAllowlisting && !validateHost cfg.hostHeaderAllowlist r.Host) = false) :
    serveCount (middlewareWrapper cfg env next w r).trace = 1 ∧
      (middlewareWrapper cfg env next w r).outcome = .returned := by
  have hs := serveCount_handled env next w r
  cases ho : (handled env next w r).outcome with
  | returned =>
    have h := middleware_returned cfg env next w r hv ho
    refine ⟨?_, h.2.2⟩
    rw [h.2.1]
    simp only [serveCount] at hs ⊢
    rw [List.count_append, hs]
    split <;> rfl
  | panicked v =>
    have h := middleware_panicked cfg env next w r v hv ho
    refine ⟨?_, h.2.2⟩
    rw [h.2.1]
    simp only [serveCount] at hs ⊢
    rw [List.count_append, hs]
    rfl

/-! ## Lemmas on extractHost -/

theorem lastIndexChars_of_not_mem (c : Char) (l : List Char) (h : c ∉ l) :
    strings.lastIndexChars l c = -1 := by
  induction l with
  | nil => rfl
  | cons x xs ih =>
    have hx : ¬ x = c := fun e => h (by simp [e])
    have hxs : c ∉ xs := fun e => h (by simp [e])
    simp [strings.lastIndexChars, ih hxs, hx]

theorem lastIndexChars_append_cons (c : Char) (pre post : List Char) (h : c ∉ post) :
    strings.lastIndexChars (pre ++ c :: post) c = pre.length := by
  induction pre with
  | nil => simp [strings.lastIndexChars, lastIndexChars_of_not_mem c post h]
  | cons x xs ih =>
    simp only [List.cons_append, strings.lastIndexChars, ih]
    simp
    omega

theorem indexChars_nonneg_of_mem (c : Char) (l : List Char) (h : c ∈ l) :
    0 ≤ strings.indexChars l c := by
  induction l with
  | nil => simp at h
  | cons x xs ih =>
    by_cases hx : x = c
    · simp [strings.indexChars, hx]
    · have hxs : c ∈ xs := by
        rcases List.mem_cons.mp h with e | e
        · exact absurd e.symm hx
        · exact e
      have := ih hxs
      simp only [strings.indexChars, hx, if_false]
      split <;> omega

theorem indexChars_lt_of_mem (c : Char) (pre rest : List Char) (h : c ∈ pre) :
    strings.indexChars (pre ++ rest) c < pre.length := by
  induction pre with
  | nil => simp at h
  | cons x xs ih =>
    by_cases hx : x = c
    · simp [strings.indexChars, hx]
    · have hxs : c ∈ xs := by
        rcases List.mem_cons.mp h with e | e
        · exact absurd e.symm hx
        · exact e
      have := ih hxs
      simp only [List.cons_append, strings.indexChars, hx, if_false, List.length_cons,
        List.append_eq]
      split <;> push_cast <;> omega

theorem indexChars_ge_of_not_mem (c : Char) (pre rest : List Char) (h : c ∉ pre)
    (hr : c ∈ rest) : (pre.length : Int) ≤ strings.indexChars (pre ++ rest) c := by
  induction pre with
  | nil => simpa using indexChars_nonneg_of_mem c rest hr
  | cons x xs ih =>
    have hx : ¬ x = c := fun e => h (by simp [e])
    have hxs : c ∉ xs := fun e => h (by simp [e])
    have h1 := ih hxs
    simp only [List.cons_append, strings.indexChars, hx, if_false, List.length_cons,
      List.append_eq]
    split <;> push_cast <;> omega

/-- An address without a colon is returned unchanged. -/
theorem extractHost_no_colon (addr : String) (h : ':' ∉ addr.data) : extractHost addr = addr := by
  simp [extractHost, strings.Contains, h]

/-- Without a closing bracket, the text before the last colon is returned,
unless that text is empty: then the address is returned unchanged. -/
theorem extractHost_no_bracket (pre post : List Char) (hpost : ':' ∉ post)
    (hb : ']' ∉ pre ++ ':' :: post) :
    extractHost ⟨pre ++ ':' :: post⟩ = if pre = [] then ⟨':' :: post⟩ else ⟨pre⟩ := by
  have hidx := lastIndexChars_append_cons ':' pre post hpost
  simp only [extractHost, strings.Contains, strings.LastIndex, hidx, sliceTo]
  have hc : (pre ++ ':' :: post).contains ':' = true := by simp
  have hnb : (pre ++ ':' :: post).contains ']' = false := by simpa using hb
  simp only [hc, hnb]
  cases pre with
  | nil => simp
  | cons x xs => simp

/-- With a closing bracket, the text before the last colon is returned when
the first closing bracket comes before that colon, and the address is
returned unchanged otherwise. -/
theorem extractHost_bracket (pre post : List Char) (hpost : ':' ∉ post)
    (hb : ']' ∈ pre ++ ':' :: post) :
    extractHost ⟨pre ++ ':' :: post⟩ = if ']' ∈ pre then ⟨pre⟩ else ⟨pre ++ ':' :: post⟩ := by
  have hidx := lastIndexChars_append_cons ':' pre post hpost
  simp only [extractHost, strings.Contains, strings.LastIndex, strings.Index, hidx, sliceTo]
  have hc : (pre ++ ':' :: post).contains ':' = true := by simp
  have hhb : (pre ++ ':' :: post).contains ']' = true := by simpa using hb
  simp only [hc, hhb]
  by_cases hp : ']' ∈ pre
  · have := indexChars_lt_of_mem ']' pre (':' :: post) hp
    simp [hp, this]
  · have := indexChars_ge_of_not_mem ']' pre (':' :: post) hp (by
      rcases List.mem_append.mp hb with e | e
      · exact absurd e hp
      · exact e)
    have hn : ¬ ((pre.length : Int) > strings.indexChars (pre ++ ':' :: post) ']') := by omega
    simp [hp, hn]

/-! ## The relay endpoint -/

/-- C1. Opaque relay: a POST whose announced length is within 3..2051, whose
body reads as `b`, for which the device answers `resp` and the connection
accepts all of `resp`, calls the device's proxy exactly once, with `b`, the
request's X-Request-ID and the serial, and is answered with status 200,
Content-Type application/octet-stream and the body `resp`. -/
theorem apiHandler_opaque_relay (env : Env) (r : Request) (serial : String) (w : ResponseWriter)
    (b resp : Bytes)
    (hmethod : r.Method = "POST")
    (hlen : 3 ≤ r.ContentLength ∧ r.ContentLength ≤ 2051)
    (hbody : r.Body = .ok b)
    (hproxy : env.usbProxy b (r.Header.Get "X-Request-ID") serial = .ok resp)
    (hfresh : w.wroteHeader = false ∧ w.body = [])
    (hwrite : env.accept [] resp = (resp.length, none)) :
    proxyCalls (relay env r serial w).trace = [(b, r.Header.Get "X-Request-ID", serial)] ∧
      (relay env r serial w).w.wroteHeader = true ∧
      (relay env r serial w).w.status = 200 ∧
      (relay env r serial w).w.sentHeader.Get "Content-Type" = "application/octet-stream" ∧
      (relay env r serial w).w.body = resp ∧
      (relay env r serial w).w.writes = w.writes ++ [resp] ∧
      (relay env r serial w).outcome = .returned := by
  have hc : ¬ ((decide (r.ContentLength < min_len) || decide (r.ContentLength > max_len)) = true) := by
    rw [length_check_iff]; omega
  simp only [relay, apiHandler, hmethod]
  rw [if_neg (by decide), if_neg hc]
  simp only [Prog.run, hbody, hproxy]
  simp [Prog.run, baseWriter, ResponseWriter.Write, ResponseWriter.WriteHeader, hfresh.1,
    hfresh.2, hwrite, StatusOK, proxyCalls, Header.Get_Set]

theorem apiHandler_opaque_relay_witness :
    proxyCalls (relay demoEnv demoPost "0123" ResponseWriter.new).trace = [([5, 0, 0], "req-1", "0123")] ∧
      (relay demoEnv demoPost "0123" ResponseWriter.new).w.wroteHeader = true ∧
      (relay demoEnv demoPost "0123" ResponseWriter.new).w.status = 200 ∧
      (relay demoEnv demoPost "0123" ResponseWriter.new).w.sentHeader.Get "Content-Type"
        = "application/octet-stream" ∧
      (relay demoEnv demoPost "0123" ResponseWriter.new).w.body = [5, 0, 0, 1] ∧
      (relay demoEnv demoPost "0123" ResponseWriter.new).w.writes = [] ++ [[5, 0, 0, 1]] ∧
      (relay demoEnv demoPost "0123" ResponseWriter.new).outcome = .returned :=
  apiHandler_opaque_relay demoEnv demoPost "0123" ResponseWriter.new [5, 0, 0] [5, 0, 0, 1]
    (by decide) (by decide) rfl rfl (by decide) (by decide)

/-- C2. Length check of the relay endpoint: a POST is answered 400 without
the body being read and without a call to the device's proxy exactly when its
announced length is below 3 or above 2051 (the unknown length -1 included);
for a length within 3..2051 the body is read and the answer is not 400. -/
theorem apiHandler_length_check (env : Env) (r : Request) (serial : String) (w : ResponseWriter)
    (hmethod : r.Method = "POST") (hfresh : w.wroteHeader = false) :
    (((relay env r serial w).w.wroteHeader = true ∧ (relay env r serial w).w.status = 400 ∧
        bodyRead (relay env r serial w).trace = false ∧
        proxyCalls (relay env r serial w).trace = []) ↔
      (r.ContentLength < 3 ∨ r.ContentLength > 2051)) ∧
    ((3 ≤ r.ContentLength ∧ r.ContentLength ≤ 2051) →
      (relay env r serial w).w.status ≠ 400 ∧ bodyRead (relay env r serial w).trace = true) := by
  refine ⟨⟨fun h => ?_, fun h => ?_⟩, fun h => relay_in_range env r serial w hmethod hfresh h⟩
  · by_contra hn
    have hin := relay_in_range env r serial w hmethod hfresh (by omega)
    exact hin.1 h.2.1
  · have hout := relay_out_of_range env r serial w hmethod hfresh h
    refine ⟨hout.1, hout.2.1, ?_, ?_⟩
    · rw [hout.2.2]; rfl
    · rw [hout.2.2]; rfl

theorem apiHandler_length_check_witness :
    (((relay demoEnv postUnknownLength "" ResponseWriter.new).w.wroteHeader = true ∧
        (relay demoEnv postUnknownLength "" ResponseWriter.new).w.status = 400 ∧
        bodyRead (relay demoEnv postUnknownLength "" ResponseWriter.new).trace = false ∧
        proxyCalls (relay demoEnv postUnknownLength "" ResponseWriter.new).trace = []) ↔
      (postUnknownLength.ContentLength < 3 ∨ postUnknownLength.ContentLength > 2051)) ∧
    ((3 ≤ postUnknownLength.ContentLength ∧ postUnknownLength.ContentLength ≤ 2051) →
      (relay demoEnv postUnknownLength "" ResponseWriter.new).w.status ≠ 400 ∧
        bodyRead (relay demoEnv postUnknownLength "" ResponseWriter.new).trace = true) :=
  apiHandler_length_check demoEnv postUnknownLength "" ResponseWriter.new (by decide) (by decide)

/-- C3, as stated, fails: a relay POST announcing 2051 bytes is relayed and
answered 200, not 400. -/
theorem relay_2051_not_rejected :
    (relay demoEnv (postOfLength 2051) "" ResponseWriter.new).w.status = 200 ∧
      ¬ (relay demoEnv (postOfLength 2051) "" ResponseWriter.new).w.status = 400 ∧
      (proxyCalls (relay demoEnv (postOfLength 2051) "" ResponseWriter.new).trace).length = 1 :=
  relay_postOfLength 2051 (by decide) (by decide)

/-- C3, amended. Boundary cases of the relay endpoint: announced length 2 is
answered 400; 2051 is the last accepted length and is not answered 400; 2052
is answered 400; length 3 with a three-byte body calls the device's proxy
exactly once, with that body. -/
theorem relay_boundary_cases (env : Env) (r : Request) (serial : String) (w : ResponseWriter)
    (hmethod : r.Method = "POST") (hfresh : w.wroteHeader = false) :
    (r.ContentLength = 2 → (relay env r serial w).w.status = 400) ∧
    (r.ContentLength = 2051 → (relay env r serial w).w.status ≠ 400) ∧
    (r.ContentLength = 2052 → (relay env r serial w).w.status = 400) ∧
    (∀ b : Bytes, r.ContentLength = 3 → r.Body = .ok b → b.length = 3 →
      proxyCalls (relay env r serial w).trace = [(b, r.Header.Get "X-Request-ID", serial)]) := by
  refine ⟨fun h => ?_, fun h => ?_, fun h => ?_, fun b h hb _ => ?_⟩
  · exact (relay_out_of_range env r serial w hmethod hfresh (by omega)).2.1
  · exact (relay_in_range env r serial w hmethod hfresh (by omega)).1
  · exact (relay_out_of_range env r serial w hmethod hfresh (by omega)).2.1
  · have hc : ¬ ((decide (r.ContentLength < min_len) || decide (r.ContentLength > max_len)) = true) := by
      rw [length_check_iff]; omega
    simp only [relay, apiHandler, hmethod]
    rw [if_neg (by decide), if_neg hc]
    simp only [Prog.run, hb]
    cases hp : env.usbProxy b (r.Header.Get "X-Request-ID") serial with
    | error e =>
      simp [Prog.run, httpError, proxyCalls, baseWriter, ResponseWriter.WriteHeader, hfresh,
        StatusInternalServerError]
    | ok resp =>
      simp only [Prog.run]
      split
      · simp [Prog.run, httpError, proxyCalls, baseWriter, ResponseWriter.WriteHeader,
          ResponseWriter.Write, hfresh, StatusOK]
      · split
        · simp [Prog.run, httpError, proxyCalls, baseWriter, ResponseWriter.WriteHeader,
            ResponseWriter.Write, hfresh, StatusOK]
        · simp [Prog.run, proxyCalls]

theorem relay_boundary_cases_witness :
    (relay demoEnv (postOfLength 2) "" ResponseWriter.new).w.status = 400 ∧
    (relay demoEnv (postOfLength 2051) "" ResponseWriter.new).w.status ≠ 400 ∧
    (relay demoEnv (postOfLength 2052) "" ResponseWriter.new).w.status = 400 ∧
    proxyCalls (relay demoEnv demoPost "" ResponseWriter.new).trace = [([5, 0, 0], "req-1", "")] :=
  ⟨(relay_boundary_cases demoEnv (postOfLength 2) "" ResponseWriter.new (by decide) (by decide)).1
      (by decide),
    (relay_boundary_cases demoEnv (postOfLength 2051) "" ResponseWriter.new (by decide)
      (by decide)).2.1 (by decide),
    (relay_boundary_cases demoEnv (postOfLength 2052) "" ResponseWriter.new (by decide)
      (by decide)).2.2.1 (by decide),
    (relay_boundary_cases demoEnv demoPost "" ResponseWriter.new (by decide) (by decide)).2.2.2
      [5, 0, 0] (by decide) rfl (by decide)⟩

/-! ## The middleware -/

/-- C4. Access control: with allowlisting enabled, the middleware answers 403
without invoking the wrapped handler (and so without any device call) exactly
when `validateHost` fails, that is when `extractHost` of the Host value is no
element of the allowlist; otherwise the wrapped handler is invoked exactly
once: the response and the trace are those of one run of `next` on the
`statusReponse` around `w`, followed by one log line (and by the recovery when
that run faults). With an empty allowlist every request is answered 403. -/
theorem middlewareWrapper_access_control (cfg : Config) (env : Env) (next : Request → Prog)
    (w : ResponseWriter) (r : Request)
    (hen : cfg.hostHeaderAllowlisting = true) (hfresh : w.wroteHeader = false) :
    (validateHost cfg.hostHeaderAllowlist r.Host = false ↔
        extractHost r.Host ∉ cfg.hostHeaderAllowlist) ∧
    (((middlewareWrapper cfg env next w r).w.status = 403 ∧
        serveCount (middlewareWrapper cfg env next w r).trace = 0) ↔
      validateHost cfg.hostHeaderAllowlist r.Host = false) ∧
    (validateHost cfg.hostHeaderAllowlist r.Host = false →
      (middlewareWrapper cfg env next w r).w.wroteHeader = true ∧
        deviceCalls (middlewareWrapper cfg env next w r).trace = 0) ∧
    (validateHost cfg.hostHeaderAllowlist r.Host = true →
      serveCount (middlewareWrapper cfg env next w r).trace = 1) ∧
    (validateHost cfg.hostHeaderAllowlist r.Host = true →
      ∀ run : Run statusReponse,
        run = (next (assignRealIP (assignRequestID env r).2.1).2).run statusWriter env
          { ResponseWriter :=
              { w with header := w.header.Add "X-Request-ID" (assignRequestID env r).1 },
            status := 0 }
          ((assignRequestID env r).2.2 ++ [.serveHTTP]) →
        (run.outcome = .returned →
          (middlewareWrapper cfg env next w r).w = run.w.ResponseWriter ∧
            (middlewareWrapper cfg env next w r).trace = run.trace ++
              [if run.w.status != StatusOK then Event.log .error "error in handling request"
                else Event.log .info "handled request"]) ∧
        (∀ v, run.outcome = .panicked v →
          (middlewareWrapper cfg env next w r).w =
              (recovery.run baseWriter env run.w.ResponseWriter run.trace).w ∧
            (middlewareWrapper cfg env next w r).trace =
              run.trace ++ [.log .error "recovered from handler panic"])) ∧
    (cfg.hostHeaderAllowlist = [] →
      (middlewareWrapper cfg env next w r).w.status = 403 ∧
        serveCount (middlewareWrapper cfg env next w r).trace = 0 ∧
        deviceCalls (middlewareWrapper cfg env next w r).trace = 0) := by
  have hallowed : validateHost cfg.hostHeaderAllowlist r.Host = true →
      serveCount (middlewareWrapper cfg env next w r).trace = 1 := fun hv =>
    (middleware_delegates cfg env next w r (by simp [hv])).1
  refine ⟨?_, ⟨fun h => ?_, fun hv => ?_⟩, fun hv => ?_, hallowed, fun hv run hrun => ?_,
    fun he => ?_⟩
  · rw [← validateHost_iff]; simp
  · cases hv : validateHost cfg.hostHeaderAllowlist r.Host with
    | false => rfl
    | true =>
      have h1 := hallowed hv
      rw [h.2] at h1
      exact absurd h1 (by decide)
  · have h := middleware_rejects cfg env next w r hen hfresh hv
    exact ⟨h.2.1, h.2.2.1⟩
  · have h := middleware_rejects cfg env next w r hen hfresh hv
    exact ⟨h.1, h.2.2.2.1⟩
  · have hrun2 : run = handled env next w r := hrun
    subst hrun2
    have hallow : (cfg.hostHeaderAllowlisting &&
        !validateHost cfg.hostHeaderAllowlist r.Host) = false := by simp [hv]
    refine ⟨fun hret => ?_, fun v hfault => ?_⟩
    · have h := middleware_returned cfg env next w r hallow hret
      exact ⟨h.1, h.2.1⟩
    · have h := middleware_panicked cfg env next w r v hallow hfault
      exact ⟨h.1, h.2.1⟩
  · have hv : validateHost cfg.hostHeaderAllowlist r.Host = false := by
      simp [validateHost, he]
    have h := middleware_rejects cfg env next w r hen hfresh hv
    exact ⟨h.2.1, h.2.2.1, h.2.2.2.1⟩

theorem middlewareWrapper_access_control_witness :
    ((middlewareWrapper demoCfg demoEnv (fun r => apiHandler r "") ResponseWriter.new
        foreignPost).w.status = 403 ∧
      serveCount (middlewareWrapper demoCfg demoEnv (fun r => apiHandler r "") ResponseWriter.new
        foreignPost).trace = 0) ∧
    serveCount (middlewareWrapper demoCfg demoEnv (fun r => apiHandler r "") ResponseWriter.new
      demoPost).trace = 1 ∧
    (middlewareWrapper demoCfg demoEnv (fun r => apiHandler r "") ResponseWriter.new demoPost).w
      = (handled demoEnv (fun r => apiHandler r "") ResponseWriter.new demoPost).w.ResponseWriter ∧
    (middlewareWrapper demoCfg demoEnv (fun r => apiHandler r "") ResponseWriter.new
        demoPost).trace
      = (handled demoEnv (fun r => apiHandler r "") ResponseWriter.new demoPost).trace ++
        [if (handled demoEnv (fun r => apiHandler r "") ResponseWriter.new demoPost).w.status
            != StatusOK
          then Event.log .error "error in handling request"
          else Event.log .info "handled request"] :=
  ⟨(middlewareWrapper_access_control demoCfg demoEnv (fun r => apiHandler r "") ResponseWriter.new
      foreignPost (by decide) (by decide)).2.1.mpr (by decide),
    (middlewareWrapper_access_control demoCfg demoEnv (fun r => apiHandler r "") ResponseWriter.new
      demoPost (by decide) (by decide)).2.2.2.1 (by decide),
    (((middlewareWrapper_access_control demoCfg demoEnv (fun r => apiHandler r "")
      ResponseWriter.new demoPost (by decide) (by decide)).2.2.2.2.1 (by decide)
      (handled demoEnv (fun r => apiHandler r "") ResponseWriter.new demoPost) rfl).1
      (by decide)).1,
    (((middlewareWrapper_access_control demoCfg demoEnv (fun r => apiHandler r "")
      ResponseWriter.new demoPost (by decide) (by decide)).2.2.2.2.1 (by decide)
      (handled demoEnv (fun r => apiHandler r "") ResponseWriter.new demoPost) rfl).1
      (by decide)).2⟩

/-- C5 at the failing input: on the 403 path the request carries the
correlation id, but the response that went out has no X-Request-ID header;
the same request with an allowlisted Host, and a handler that faults, are
answered with the header. -/
theorem rejected_response_lacks_request_id :
    (middlewareWrapper demoCfg demoEnv (fun r => apiHandler r "") ResponseWriter.new
        foreignPost).w.status = 403 ∧
      (middlewareWrapper demoCfg demoEnv (fun r => apiHandler r "") ResponseWriter.new
        foreignPost).r.Header.Get "X-Request-ID" = "req-1" ∧
      (middlewareWrapper demoCfg demoEnv (fun r => apiHandler r "") ResponseWriter.new
        foreignPost).w.sentHeader.Get "X-Request-ID" = "" ∧
      (middlewareWrapper demoCfg demoEnv (fun r => apiHandler r "") ResponseWriter.new
        foreignPost).w.header.Get "X-Request-ID" = "" ∧
      (middlewareWrapper demoCfg demoEnv (fun r => apiHandler r "") ResponseWriter.new
        demoPost).w.sentHeader.Get "X-Request-ID" = "req-1" ∧
      (middlewareWrapper demoCfg demoEnv faultAtOnce ResponseWriter.new
        demoPost).w.sentHeader.Get "X-Request-ID" = "req-1" := by
  decide

/-- C8, as stated, fails: a handler that faults after it set status 200 and
wrote bytes leaves the response at status 200, not 500. -/
theorem fault_after_write_keeps_status :
    (handled demoEnv faultAfterWrite ResponseWriter.new demoPost).outcome = .panicked "boom" ∧
      (middlewareWrapper demoCfg demoEnv faultAfterWrite ResponseWriter.new demoPost).outcome
        = .returned ∧
      (middlewareWrapper demoCfg demoEnv faultAfterWrite ResponseWriter.new demoPost).w.status = 200 ∧
      ¬ (middlewareWrapper demoCfg demoEnv faultAfterWrite ResponseWriter.new demoPost).w.status
        = 500 := by
  decide

/-- C8, amended. Fault isolation: when the wrapped handler faults, the
handler built by `middlewareWrapper` returns normally; the response has status
500 unless the final response header had already gone out when the handler
faulted (through a `Write`, or a `WriteHeader` with a valid code that is not
an informational 1xx): in that case it keeps the status already sent. -/
theorem middlewareWrapper_fault_isolation (cfg : Config) (env : Env) (next : Request → Prog)
    (w : ResponseWriter) (r : Request) (v : String)
    (hallow : (cfg.hostHeaderAllowlisting && !validateHost cfg.hostHeaderAllowlist r.Host) = false)
    (hfault : (handled env next w r).outcome = .panicked v) :
    (middlewareWrapper cfg env next w r).outcome = .returned ∧
    ((handled env next w r).w.ResponseWriter.wroteHeader = false →
      (middlewareWrapper cfg env next w r).w.wroteHeader = true ∧
        (middlewareWrapper cfg env next w r).w.status = 500) ∧
    ((handled env next w r).w.ResponseWriter.wroteHeader = true →
      (middlewareWrapper cfg env next w r).w.status
        = (handled env next w r).w.ResponseWriter.status) := by
  have h := middleware_panicked cfg env next w r v hallow hfault
  have hrec := recovery_run env (handled env next w r).w.ResponseWriter (handled env next w r).trace
  refine ⟨h.2.2, fun hw => ?_, fun hw => ?_⟩
  · rw [h.1]
    refine ⟨hrec.2.2.1, ?_⟩
    rw [hrec.2.2.2, hw]
    rfl
  · rw [h.1, hrec.2.2.2, hw]
    rfl

theorem middlewareWrapper_fault_isolation_witness :
    (middlewareWrapper demoCfg demoEnv faultAtOnce ResponseWriter.new demoPost).outcome = .returned ∧
      ((middlewareWrapper demoCfg demoEnv faultAtOnce ResponseWriter.new demoPost).w.wroteHeader
          = true ∧
        (middlewareWrapper demoCfg demoEnv faultAtOnce ResponseWriter.new demoPost).w.status = 500) ∧
      ((middlewareWrapper demoCfg demoEnv faultAfterEarlyHints ResponseWriter.new
          demoPost).w.wroteHeader = true ∧
        (middlewareWrapper demoCfg demoEnv faultAfterEarlyHints ResponseWriter.new
          demoPost).w.status = 500) ∧
      ((middlewareWrapper demoCfg demoEnv invalidCodeHandler ResponseWriter.new
          demoPost).w.wroteHeader = true ∧
        (middlewareWrapper demoCfg demoEnv invalidCodeHandler ResponseWriter.new
          demoPost).w.status = 500) ∧
      (middlewareWrapper demoCfg demoEnv faultAfterWrite ResponseWriter.new demoPost).w.status
        = (handled demoEnv faultAfterWrite ResponseWriter.new demoPost).w.ResponseWriter.status :=
  ⟨(middlewareWrapper_fault_isolation demoCfg demoEnv faultAtOnce ResponseWriter.new demoPost "boom"
      (by decide) (by decide)).1,
    (middlewareWrapper_fault_isolation demoCfg demoEnv faultAtOnce ResponseWriter.new demoPost "boom"
      (by decide) (by decide)).2.1 (by decide),
    (middlewareWrapper_fault_isolation demoCfg demoEnv faultAfterEarlyHints ResponseWriter.new
      demoPost "boom" (by decide) (by decide)).2.1 (by decide),
    (middlewareWrapper_fault_isolation demoCfg demoEnv invalidCodeHandler ResponseWriter.new
      demoPost "invalid WriteHeader code" (by decide) (by decide)).2.1 (by decide),
    (middlewareWrapper_fault_isolation demoCfg demoEnv faultAfterWrite ResponseWriter.new
      demoPost "boom" (by decide) (by decide)).2.2 (by decide)⟩

/-- C10 at the failing input: for the remote address `[::1]:1234` and no
X-Real-IP header the client IP is the text before the first colon, `[`, and
that is what is written back onto the request; the text before the last
colon is `[::1]`. -/
theorem ipv6_remote_addr_client_ip :
    ipv6Post.Header.Get "X-Real-IP" = "" ∧
      (assignRealIP ipv6Post).1 = "[" ∧
      (middlewareWrapper demoCfg demoEnv (fun r => apiHandler r "") ResponseWriter.new
        ipv6Post).r.Header.Get "X-Real-IP" = "[" ∧
      sliceTo ipv6Post.RemoteAddr (strings.LastIndex ipv6Post.RemoteAddr ':') = "[::1]" := by
  decide

/-! ## The host allowlist -/

/-- C6 at the failing input: an address whose only colon is its first
character contains a colon and no closing bracket, the text before its last
colon is empty, and `extractHost` returns the address unchanged. The three
examples of the claim hold. -/
theorem extractHost_leading_colon :
    strings.Contains ":8080" ':' = true ∧ strings.Contains ":8080" ']' = false ∧
      sliceTo ":8080" (strings.LastIndex ":8080" ':') = "" ∧
      extractHost ":8080" = ":8080" ∧
      extractHost "192.0.2.1:8080" = "192.0.2.1" ∧
      extractHost "[2001:db8::1]:8080" = "[2001:db8::1]" ∧
      extractHost "localhost" = "localhost" := by
  decide

/-! ## The status endpoint -/

/-- C7. For every GET request the status handler answers 200, calls the device
check exactly once (and nothing else on the device), and hands to the writer
exactly the six newline-terminated lines status, serial, version, pid=1,
address, port, in this order, with status OK when the check succeeded and
NO_DEVICE otherwise, serial a star for the empty serial and the serial
otherwise, and host and port from the listener address; these lines are the
body when the connection accepts every write in full. -/
theorem statusHandler_report (cfg : Config) (SplitHostPort : String → String × String)
    (env : Env) (r : Request) (serial : String) (w : ResponseWriter)
    (hmethod : r.Method = "GET")
    (hfresh : w.wroteHeader = false ∧ w.body = [] ∧ w.writes = []) :
    (report cfg SplitHostPort env r serial w).w.wroteHeader = true ∧
    (report cfg SplitHostPort env r serial w).w.status = 200 ∧
    checkCalls (report cfg SplitHostPort env r serial w).trace
      = [(r.Header.Get "X-Request-ID", serial)] ∧
    proxyCalls (report cfg SplitHostPort env r serial w).trace = [] ∧
    (report cfg SplitHostPort env r serial w).w.writes
      = (specLines (specStatus (env.usbCheck (r.Header.Get "X-Request-ID") serial))
          (specSerial serial) cfg.Version (specAddress SplitHostPort r.LocalAddr).1
          (specAddress SplitHostPort r.LocalAddr).2).map bytesOf ∧
    ((∀ b p, env.accept b p = (p.length, none)) →
      (report cfg SplitHostPort env r serial w).w.body
        = (specLines (specStatus (env.usbCheck (r.Header.Get "X-Request-ID") serial))
            (specSerial serial) cfg.Version (specAddress SplitHostPort r.LocalAddr).1
            (specAddress SplitHostPort r.LocalAddr).2).flatMap bytesOf) := by
  obtain ⟨hw, hb, hws⟩ := hfresh
  simp only [report, statusHandler, hmethod]
  rw [if_neg (by decide)]
  simp only [Prog.run]
  cases hc : env.usbCheck (r.Header.Get "X-Request-ID") serial <;>
    by_cases hs : serial = "" <;>
    cases hl : r.LocalAddr <;>
    (refine ⟨?_, ?_, ?_, ?_, ?_, fun ha => ?_⟩ <;>
      simp [Prog.run, Fprintf, baseWriter, ResponseWriter.Write, ResponseWriter.WriteHeader, hw, hb,
        hws, hs, StatusOK, checkCalls, proxyCalls, specLines, specStatus, specSerial, specAddress])
  all_goals simp [ha]

theorem statusHandler_report_witness :
    (report demoCfg demoSplit noDeviceEnv demoGet "" ResponseWriter.new).w.status = 200 ∧
    checkCalls (report demoCfg demoSplit noDeviceEnv demoGet "" ResponseWriter.new).trace
      = [("req-1", "")] ∧
    (report demoCfg demoSplit noDeviceEnv demoGet "" ResponseWriter.new).w.body
      = bytesOf
        "status=NO_DEVICE\nserial=*\nversion=3.0.4\npid=1\naddress=127.0.0.1\nport=12345\n" :=
  ⟨(statusHandler_report demoCfg demoSplit noDeviceEnv demoGet "" ResponseWriter.new (by decide)
      (by decide)).2.1,
    (statusHandler_report demoCfg demoSplit noDeviceEnv demoGet "" ResponseWriter.new (by decide)
      (by decide)).2.2.1,
    ((statusHandler_report demoCfg demoSplit noDeviceEnv demoGet "" ResponseWriter.new (by decide)
      (by decide)).2.2.2.2.2 (fun _ _ => rfl)).trans (by decide)⟩

/-! ## The status-recording writer -/

/-- After the final header went out and a status is on record, `Write` calls
change neither the record nor the status sent, and hand their payloads to the
underlying writer unmodified and in order. -/
theorem writeAll_run (env : Env) (ps : List Bytes) (r : statusReponse) (t : List Event)
    (hs : r.status ≠ 0) (hw : r.ResponseWriter.wroteHeader = true) :
    ((writeAll ps).run statusWriter env r t).w.status = r.status ∧
      ((writeAll ps).run statusWriter env r t).w.ResponseWriter.wroteHeader = true ∧
      ((writeAll ps).run statusWriter env r t).w.ResponseWriter.status
        = r.ResponseWriter.status ∧
      ((writeAll ps).run statusWriter env r t).w.ResponseWriter.writes
        = r.ResponseWriter.writes ++ ps ∧
      ((writeAll ps).run statusWriter env r t).outcome = .returned := by
  induction ps generalizing r with
  | nil => simp [writeAll, Prog.run, hw]
  | cons p ps ih =>
    simp only [writeAll, Prog.run]
    have h := ih (statusWriter.Write env.accept r p).1
      (by simp [statusWriter, statusReponse.Write, hs])
      (by simp [statusWriter, statusReponse.Write, ResponseWriter.Write, hs, hw])
    refine ⟨h.1.trans ?_, h.2.1, h.2.2.1.trans ?_, h.2.2.2.1.trans ?_, h.2.2.2.2⟩
    · simp [statusWriter, statusReponse.Write, hs]
    · simp [statusWriter, statusReponse.Write, ResponseWriter.Write, hs, hw]
    · simp [statusWriter, statusReponse.Write, ResponseWriter.Write, hs, hw]

/-- First call wins when no `WriteHeader` follows: a `WriteHeader` with a final
code followed only by `Write` calls records and sends that code. -/
theorem statusReponse_WriteHeader_then_writes (env : Env) (w : ResponseWriter) (code : Int)
    (ps : List Bytes) (hfresh : w.wroteHeader = false) (hcode : 200 ≤ code ∧ code ≤ 999) :
    ((Prog.writeHeader code (writeAll ps)).run statusWriter env ⟨w, 0⟩ []).w.status = code ∧
      ((Prog.writeHeader code (writeAll ps)).run statusWriter env ⟨w, 0⟩ []).w.ResponseWriter.status
        = code ∧
      ((Prog.writeHeader code (writeAll ps)).run statusWriter env ⟨w, 0⟩ []).w.ResponseWriter.writes
        = w.writes ++ ps := by
  have h1 : ¬ code < 100 := by omega
  have h2 : ¬ code > 999 := by omega
  have h3 : ¬ code ≤ 199 := by omega
  have hne : code ≠ 0 := by omega
  have hstep : statusWriter.WriteHeader ⟨w, 0⟩ code
      = (⟨{ w with wroteHeader := true, status := code, sentHeader := w.header }, code⟩, none) := by
    simp [statusWriter, statusReponse.WriteHeader, ResponseWriter.WriteHeader, hfresh, h1, h2, h3]
  simp only [Prog.run, hstep]
  have h := writeAll_run env ps
    ⟨{ w with wroteHeader := true, status := code, sentHeader := w.header }, code⟩ [] hne rfl
  exact ⟨h.1, h.2.2.1, h.2.2.2.1⟩

/-- First call wins when no `WriteHeader` follows: a sequence of `Write` calls
records and sends 200. -/
theorem statusReponse_writes_only (env : Env) (w : ResponseWriter) (p : Bytes) (ps : List Bytes)
    (hfresh : w.wroteHeader = false) :
    ((writeAll (p :: ps)).run statusWriter env ⟨w, 0⟩ []).w.status = 200 ∧
      ((writeAll (p :: ps)).run statusWriter env ⟨w, 0⟩ []).w.ResponseWriter.status = 200 ∧
      ((writeAll (p :: ps)).run statusWriter env ⟨w, 0⟩ []).w.ResponseWriter.writes
        = w.writes ++ p :: ps := by
  simp only [writeAll, Prog.run]
  have h := writeAll_run env ps (statusWriter.Write env.accept ⟨w, 0⟩ p).1 []
    (by simp [statusWriter, statusReponse.Write, statusReponse.WriteHeader, StatusOK])
    (by simp [statusWriter, statusReponse.Write, statusReponse.WriteHeader, ResponseWriter.Write,
      ResponseWriter.WriteHeader, hfresh, StatusOK, StatusSwitchingProtocols])
  refine ⟨h.1.trans ?_, h.2.2.1.trans ?_, h.2.2.2.1.trans ?_⟩
  · simp [statusWriter, statusReponse.Write, statusReponse.WriteHeader, StatusOK]
  · simp [statusWriter, statusReponse.Write, statusReponse.WriteHeader, ResponseWriter.Write,
      ResponseWriter.WriteHeader, hfresh, StatusOK, StatusSwitchingProtocols]
  · simp [statusWriter, statusReponse.Write, statusReponse.WriteHeader, ResponseWriter.Write,
      ResponseWriter.WriteHeader, hfresh, StatusOK, StatusSwitchingProtocols]

/-- C9 at the failing inputs: on a fresh `statusReponse`, `WriteHeader(404)`
then `WriteHeader(500)` leaves 500 on record although 404 was the first call
and is the status sent; a `Write` then `WriteHeader(500)` leaves 500 on record
although 200 was sent; and the short-write path of the relay (source lines
220-228) under the middleware leaves 500 on record for a response sent as
200. -/
theorem statusReponse_WriteHeader_overwrites_record :
    ((Prog.writeHeader 404 (.writeHeader 500 .ret)).run statusWriter demoEnv
        ⟨ResponseWriter.new, 0⟩ []).w.status = 500 ∧
      ((Prog.writeHeader 404 (.writeHeader 500 .ret)).run statusWriter demoEnv
        ⟨ResponseWriter.new, 0⟩ []).w.ResponseWriter.status = 404 ∧
      ((Prog.write [1] fun _ _ => .writeHeader 500 .ret).run statusWriter demoEnv
        ⟨ResponseWriter.new, 0⟩ []).w.status = 500 ∧
      ((Prog.write [1] fun _ _ => .writeHeader 500 .ret).run statusWriter demoEnv
        ⟨ResponseWriter.new, 0⟩ []).w.ResponseWriter.status = 200 ∧
      (handled shortWriteEnv (fun r => apiHandler r "") ResponseWriter.new demoPost).w.status
        = 500 ∧
      (handled shortWriteEnv (fun r => apiHandler r "") ResponseWriter.new
        demoPost).w.ResponseWriter.status = 200 := by
  decide

end Connector
